import Mathlib

/-!
Verification of the Mosaic event-management backend's registration
consistency engine: data model, time resolver, capacity ledger,
registration state machine, event directory and dashboard aggregation,
embedded shallowly from the JavaScript source.

Conventions of the embedding:
* JavaScript `Date` values (the stored `event.date` and every `now`) are
  milliseconds since the Unix epoch, as `Nat` (all dates handled by the
  system are after 1970).
* Mongo object ids are `Nat`.
* `event.time` stays a `String`, exactly as stored, because the source both
  parses it (`time.split(':').map(Number)`) and compares it raw
  (`event.time < { $dateToString: ... }`).
* Fallible route handlers become functions into `Except`; the document
  store is a `List Event` (ids unique), `findById` is `List.find?`,
  `save` of a fetched document writes it back by id, `remove` /
  `findByIdAndDelete` filters it out.
-/

namespace Mosaic

/-- The fixed event-type enumeration of the Event schema
(`enum: ['Academic', 'Social', 'Sports', 'Cultural', 'Workshop', 'Conference']`). -/
inductive EventType
  | Academic
  | Social
  | Sports
  | Cultural
  | Workshop
  | Conference
deriving DecidableEq, BEq, Repr

/-- User roles (`user` or `admin`). -/
inductive Role
  | user
  | admin
deriving DecidableEq, BEq, Repr

/-- A registration subdocument of the Event schema:
`{ user: ObjectId, registeredAt: Date }`. -/
structure Registration where
  user : Nat
  registeredAt : Nat
deriving DecidableEq, Repr

/-- An Event document (`models/Event.js`): title, description, `date`
(a `Date`), `time` (an `HH:MM` string), location, type, capacity,
creator and the owned list of registrations. -/
structure Event where
  id : Nat
  title : String
  description : String
  date : Nat
  time : String
  location : String
  type : EventType
  capacity : Nat
  creator : Nat
  registrations : List Registration
deriving DecidableEq, Repr

/-- A User document, as used by the routes: role, `preferences`
(event types the user will register for) and `registeredEvents`
(the denormalized list of event ids the user is registered in). -/
structure User where
  id : Nat
  role : Role
  preferences : List EventType
  registeredEvents : List Nat
deriving DecidableEq, Repr

/-! ## Time resolver

`GET /` (events router) combines `date` and `time`:
```
const [hours, minutes] = event.time.split(':').map(Number);
const eventDateTime = new Date(event.date);
eventDateTime.setUTCHours(hours, minutes, 0, 0);
return eventDateTime > now;
```
`setUTCHours(h, m, 0, 0)` keeps the UTC calendar day of `event.date` and
sets hours, minutes, seconds and milliseconds, so the resolved instant is
the start of that UTC day plus `h` hours and `m` minutes (for the
pattern-valid times stored by the schema, `h < 24` and `m < 60`). -/

/-- JavaScript `string.split(sep)` for a one-character separator, on the
character list of the string. -/
def splitCh (sep : Char) : List Char → List (List Char)
  | [] => [[]]
  | c :: rest =>
    match splitCh sep rest with
    | [] => [[c]]
    | g :: gs => if c == sep then [] :: g :: gs else (c :: g) :: gs

/-- JavaScript `Number` on a string of decimal digits.  On a non-digit
string `Number` yields `NaN`; the schema's pattern rules those out here,
and we collapse that case to `0`. -/
def jsNumber (l : List Char) : Nat :=
  (l.foldl
    (fun acc c =>
      match acc with
      | some n => if c.isDigit then some (n * 10 + (c.toNat - 48)) else none
      | none => none)
    (some 0)).getD 0

/-- `time.split(':').map(Number)` destructured into `[hours, minutes]`.
On the schema's pattern-valid `HH:MM` strings this yields the hour and
minute as numbers, exactly as `Number` does. -/
def parseTime (s : String) : Nat × Nat :=
  match (splitCh ':' s.data).map jsNumber with
  | h :: m :: _ => (h, m)
  | _ => (0, 0)

/-- Milliseconds in a day. -/
def msPerDay : Nat := 86400000

/-- Start of the UTC calendar day containing instant `t`. -/
def dayStart (t : Nat) : Nat := t / msPerDay * msPerDay

/-- The resolved instant of an event: its stored date's UTC day combined
with its `HH:MM` time, seconds and milliseconds zeroed. -/
def eventInstant (e : Event) : Nat :=
  dayStart e.date + (parseTime e.time).1 * 3600000 + (parseTime e.time).2 * 60000

/-- The upcoming filter of `GET /`: `eventDateTime > now`, strict. -/
def isUpcoming (e : Event) (now : Nat) : Bool :=
  decide (now < eventInstant e)

/-! ## Capacity ledger (schema virtuals) -/

/-- Virtual `isFull`: `this.registrations.length >= this.capacity`. -/
def Event.isFull (e : Event) : Bool :=
  decide (e.capacity ≤ e.registrations.length)

/-- Virtual `availableSpots`:
`Math.max(0, this.capacity - this.registrations.length)` (JavaScript
subtraction may go negative, hence the clamp; we compute in `Int`). -/
def Event.availableSpots (e : Event) : Int :=
  max 0 ((e.capacity : Int) - (e.registrations.length : Int))

/-! ## Document store helpers -/

/-- `Event.findById`. -/
def findEvent (events : List Event) (eventId : Nat) : Option Event :=
  events.find? (fun e => e.id == eventId)

/-- `event.save()` after mutating a document fetched by id: write the
updated document back over the record with that id. -/
def saveEvent (events : List Event) (e' : Event) : List Event :=
  events.map (fun e => if e.id == e'.id then e' else e)

/-- `event.remove()` / `Event.findByIdAndDelete`: drop the record with
the given id. -/
def removeEvent (events : List Event) (eventId : Nat) : List Event :=
  events.filter (fun e => !(e.id == eventId))

/-! ## The started-event guard of the events router

Three handlers (user cancel, admin cancel, admin delete) repeat:
```
if (event.date < now ||
    (event.date.toISOString().split('T')[0] === now.toISOString().split('T')[0]
     && event.time < { $dateToString: { format: '%H:%M', date: now } }))
```
The second conjunct compares the `HH:MM` string with an object literal:
JavaScript's relational comparison converts the object to the primitive
string `"[object Object]"` and then compares code-unit-wise. -/

/-- Equality of the `toISOString().split('T')[0]` date strings: the two
instants fall on the same UTC calendar day. -/
def sameUTCDay (a b : Nat) : Bool :=
  decide (a / msPerDay = b / msPerDay)

/-- JavaScript's `<` on two strings: lexicographic comparison of code
units (identical to code-point order on the ASCII strings involved
here). -/
def chLt : List Char → List Char → Bool
  | [], [] => false
  | [], _ :: _ => true
  | _ :: _, [] => false
  | x :: xs, y :: ys => decide (x < y) || (x == y && chLt xs ys)

/-- The comparison `event.time < { $dateToString: ... }` as JavaScript
evaluates it: the object literal becomes the primitive string
`"[object Object]"` and the comparison is lexicographic. -/
def jsTimeLtObjectLiteral (s : String) : Bool :=
  chLt s.data "[object Object]".data

/-- The full started-event guard shared by the cancel and delete
handlers of the events router. -/
def startedGuard (e : Event) (now : Nat) : Bool :=
  decide (e.date < now) || (sameUTCDay e.date now && jsTimeLtObjectLiteral e.time)

/-! ## Registration state machine -/

/-- Failure outcomes of `POST /:id/register`, in the order the handler
checks them. -/
inductive RegisterError
  | NotFound
  | PreferenceMismatch
  | AlreadyRegistered
  | EventFull
deriving DecidableEq, Repr

/-- `POST /:id/register`: look the event up, check the type is in the
acting user's preferences, check the user is not already registered,
check capacity, then push a registration onto the event and the event id
onto the user's `registeredEvents`, saving both.  `userIn` is the
authenticated user (the auth middleware resolved it from the database);
`now` is the wall clock used for `registeredAt`. -/
def registerForEvent (events : List Event) (userIn : User) (eventId : Nat)
    (now : Nat) : Except RegisterError (List Event × User) :=
  match findEvent events eventId with
  | none => .error .NotFound
  | some event =>
    if !(userIn.preferences.contains event.type) then
      .error .PreferenceMismatch
    else if event.registrations.any (fun reg => reg.user == userIn.id) then
      .error .AlreadyRegistered
    else if event.capacity ≤ event.registrations.length then
      .error .EventFull
    else
      let event' := { event with
        registrations := event.registrations ++ [⟨userIn.id, now⟩] }
      .ok (saveEvent events event',
           { userIn with registeredEvents := userIn.registeredEvents ++ [event.id] })

/-- Failure outcomes of the cancel handlers. -/
inductive CancelError
  | NotFound
  | EventStarted
  | NotRegistered
deriving DecidableEq, Repr

/-- `DELETE /:id/register` (events router): look the event up, run the
started-event guard, locate the caller's registration, splice it out and
`$pull` the event id from the caller's `registeredEvents`. -/
def cancelRegistration (events : List Event) (userIn : User) (eventId : Nat)
    (now : Nat) : Except CancelError (List Event × User) :=
  match findEvent events eventId with
  | none => .error .NotFound
  | some event =>
    if startedGuard event now then
      .error .EventStarted
    else
      match event.registrations.findIdx? (fun reg => reg.user == userIn.id) with
      | none => .error .NotRegistered
      | some i =>
        let event' := { event with registrations := event.registrations.eraseIdx i }
        .ok (saveEvent events event',
             { userIn with
               registeredEvents := userIn.registeredEvents.filter (fun x => !(x == event.id)) })

/-- `DELETE /:eventId/registrations/:userId` (events router, admin): the
same transition as `cancelRegistration` but targeting an arbitrary user
id; the target user record is updated by `findByIdAndUpdate` with
`$pull`. -/
def adminCancelRegistration (events : List Event) (users : List User)
    (eventId userId : Nat) (now : Nat) : Except CancelError (List Event × List User) :=
  match findEvent events eventId with
  | none => .error .NotFound
  | some event =>
    if startedGuard event now then
      .error .EventStarted
    else
      match event.registrations.findIdx? (fun reg => reg.user == userId) with
      | none => .error .NotRegistered
      | some i =>
        let event' := { event with registrations := event.registrations.eraseIdx i }
        .ok (saveEvent events event',
             users.map (fun u =>
               if u.id == userId then
                 { u with registeredEvents := u.registeredEvents.filter (fun x => !(x == eventId)) }
               else u))

/-- `DELETE /events/:eventId/registrations/:userId` (admin router,
`routes/admin.js`): looks the event up and splices the registration out,
with **no** started-event guard and **no** update of the target user's
`registeredEvents` (it only bumps an `availableSeats` counter that the
Event schema does not define).  Takes no `now` because the handler never
consults the clock. -/
def adminRouterCancelRegistration (events : List Event) (users : List User)
    (eventId userId : Nat) : Except CancelError (List Event × List User) :=
  match findEvent events eventId with
  | none => .error .NotFound
  | some event =>
    match event.registrations.findIdx? (fun reg => reg.user == userId) with
    | none => .error .NotRegistered
    | some i =>
      let event' := { event with registrations := event.registrations.eraseIdx i }
      .ok (saveEvent events event', users)

/-! ## Event directory (update and delete) -/

/-- The `HH:MM` pattern of the schema and of `validateEvent`:
`^([0-1]?[0-9]|2[0-3]):[0-5][0-9]$`. -/
def hhmmValid (s : String) : Bool :=
  match s.data with
  | [h, c, m1, m2] =>
      ('0' ≤ h && h ≤ '9') && c == ':' && ('0' ≤ m1 && m1 ≤ '5') && ('0' ≤ m2 && m2 ≤ '9')
  | [h1, h2, c, m1, m2] =>
      (((h1 == '0' || h1 == '1') && ('0' ≤ h2 && h2 ≤ '9')) ||
        (h1 == '2' && ('0' ≤ h2 && h2 ≤ '3'))) &&
      c == ':' && ('0' ≤ m1 && m1 ≤ '5') && ('0' ≤ m2 && m2 ≤ '9')
  | _ => false

/-- A request body for the event update routes.  `Object.assign` merges
only the keys the request supplies, so every field is optional. -/
structure EventBody where
  title : Option String := none
  description : Option String := none
  date : Option Nat := none
  time : Option String := none
  location : Option String := none
  capacity : Option Nat := none
  type : Option EventType := none
deriving DecidableEq, Repr

/-- Whitespace as trimmed by JavaScript's `String.prototype.trim` (the
characters that occur in this system's data). -/
def isJsSpace (c : Char) : Bool :=
  c == ' ' || c == '\t' || c == '\n' || c == '\r'

/-- JavaScript / mongoose `trim` on the character list. -/
def chTrim (l : List Char) : List Char :=
  ((l.dropWhile isJsSpace).reverse.dropWhile isJsSpace).reverse

/-- `trim` on a string. -/
def strTrim (s : String) : String :=
  String.mk (chTrim s.data)

/-- The `validateEvent` middleware chain of the events router: every
field must be present and valid (trimmed title/description/location
non-empty, ISO date, `HH:MM` time, capacity an integer ≥ 1, type in the
enum — the last two hold by typing here). -/
def validateEventBody (b : EventBody) : Bool :=
  (match b.title with | some t => !(chTrim t.data).isEmpty | none => false) &&
  (match b.description with | some d => !(chTrim d.data).isEmpty | none => false) &&
  (match b.date with | some _ => true | none => false) &&
  (match b.time with | some t => hhmmValid t | none => false) &&
  (match b.location with | some l => !(chTrim l.data).isEmpty | none => false) &&
  (match b.capacity with | some c => decide (1 ≤ c) | none => false) &&
  (match b.type with | some _ => true | none => false)

/-- `Object.assign(event, req.body)`: overwrite exactly the supplied
fields. -/
def applyBody (e : Event) (b : EventBody) : Event :=
  { e with
    title := b.title.getD e.title,
    description := b.description.getD e.description,
    date := b.date.getD e.date,
    time := b.time.getD e.time,
    location := b.location.getD e.location,
    capacity := b.capacity.getD e.capacity,
    type := b.type.getD e.type }

/-- The comparison `req.body.capacity < event.registrations.length` as
JavaScript evaluates it: when the body carries no capacity the left side
is `undefined` and the comparison is false. -/
def jsBodyCapacityLt (b : EventBody) (n : Nat) : Bool :=
  match b.capacity with
  | some c => decide (c < n)
  | none => false

/-- Mongoose document validation run by `event.save()` on the admin
router's update path: required trimmed strings non-empty, `time` matches
the `HH:MM` pattern, `capacity ≥ 1` (type and date hold by typing). -/
def mongooseValidEvent (e : Event) : Bool :=
  !(chTrim e.title.data).isEmpty && !(chTrim e.description.data).isEmpty &&
  hhmmValid e.time && !(chTrim e.location.data).isEmpty && decide (1 ≤ e.capacity)

/-- The schema's `trim: true` setters, applied when a document is
saved. -/
def mongooseNormalize (e : Event) : Event :=
  { e with title := strTrim e.title, description := strTrim e.description,
           location := strTrim e.location }

/-- Failure outcomes of the update routes. -/
inductive UpdateError
  | ValidationFailed
  | NotFound
  | CapacityInvariantViolated
deriving DecidableEq, Repr

/-- `PUT /admin/:id` (events router): run `validateEvent`, look the
event up, reject if the new capacity is below the current registration
count, else `Object.assign` and save. -/
def updateEvent (events : List Event) (eventId : Nat) (b : EventBody) :
    Except UpdateError (List Event) :=
  if !(validateEventBody b) then
    .error .ValidationFailed
  else
    match findEvent events eventId with
    | none => .error .NotFound
    | some event =>
      if jsBodyCapacityLt b event.registrations.length then
        .error .CapacityInvariantViolated
      else
        .ok (saveEvent events (mongooseNormalize (applyBody event b)))

/-- `PUT /events/:id` (admin router, `routes/admin.js`): no validation
middleware and **no capacity-versus-registrations check** — it looks the
event up, `Object.assign`s the body and saves; only the schema-level
mongoose validation runs at `save()`. -/
def adminRouterUpdateEvent (events : List Event) (eventId : Nat) (b : EventBody) :
    Except UpdateError (List Event) :=
  match findEvent events eventId with
  | none => .error .NotFound
  | some event =>
    let event' := mongooseNormalize (applyBody event b)
    if !(mongooseValidEvent event') then
      .error .ValidationFailed
    else
      .ok (saveEvent events event')

/-- Failure outcomes of the delete routes. -/
inductive DeleteError
  | NotFound
  | EventAlreadyStarted
deriving DecidableEq, Repr

/-- `DELETE /admin/:id` (events router): look the event up, run the
started-event guard, then `event.remove()`. -/
def deleteEvent (events : List Event) (eventId : Nat) (now : Nat) :
    Except DeleteError (List Event) :=
  match findEvent events eventId with
  | none => .error .NotFound
  | some event =>
    if startedGuard event now then
      .error .EventAlreadyStarted
    else
      .ok (removeEvent events eventId)

/-- `DELETE /events/:id` (admin router, `routes/admin.js`):
`Event.findByIdAndDelete` with **no** time guard at all; takes no `now`
because the handler never consults the clock. -/
def adminRouterDeleteEvent (events : List Event) (eventId : Nat) :
    Except DeleteError (List Event) :=
  match findEvent events eventId with
  | none => .error .NotFound
  | some _ => .ok (removeEvent events eventId)

/-! ## Dashboard aggregation (`GET /dashboard`, admin router) -/

/-- The dashboard payload: total users with role `user`, total events,
the count of events with `date >= now`, and the `$group` by
`'$eventType'`. -/
structure DashboardStats where
  totalUsers : Nat
  totalEvents : Nat
  upcomingEvents : Nat
  eventsByType : List (Option EventType × Nat)
deriving DecidableEq, Repr

/-- `GET /dashboard` (admin router): `countDocuments({role:'user'})`,
`countDocuments()`, `countDocuments({date: {$gte: new Date()}})` — a
**raw** comparison on the stored `date` alone — and an aggregation that
groups on the field `eventType`, which the Event schema does not define,
so every document lands in the single `null` group (`none`); an empty
collection yields no groups. -/
def dashboardStats (events : List Event) (users : List User) (now : Nat) :
    DashboardStats :=
  { totalUsers := (users.filter (fun u => u.role == Role.user)).length
    totalEvents := events.length
    upcomingEvents := (events.filter (fun e => decide (now ≤ e.date))).length
    eventsByType := if events.isEmpty then [] else [(none, events.length)] }

/-! ## Concrete fixtures

`1717200000000` is `2024-06-01T00:00:00Z` in epoch milliseconds
(19875 days); `1717282800000` is `2024-06-01T23:00:00Z` and
`1717286400000` is `2024-06-02T00:00:00Z`. -/

/-- The spec's worked example: an event dated 2024-06-01 at 23:30. -/
def sampleEvent : Event :=
  { id := 1, title := "Spring Fair", description := "annual fair",
    date := 1717200000000, time := "23:30", location := "quad",
    type := EventType.Social, capacity := 3, creator := 9, registrations := [] }

/-- An event dated 1970-01-01 at 10:00 — long past for any modern `now` —
with one registration, by user 7. -/
def pastRegEvent : Event :=
  { id := 1, title := "Old Meetup", description := "met long ago",
    date := 0, time := "10:00", location := "hall",
    type := EventType.Social, capacity := 2, creator := 9,
    registrations := [⟨7, 50⟩] }

/-- An event at full capacity: 3 seats, 3 registrations. -/
def fullEvent : Event :=
  { id := 1, title := "Workshop Day", description := "hands-on",
    date := 1717200000000, time := "09:00", location := "lab",
    type := EventType.Workshop, capacity := 3, creator := 9,
    registrations := [⟨4, 10⟩, ⟨5, 20⟩, ⟨6, 30⟩] }

/-- A user registered for event 1 (matching `pastRegEvent`). -/
def registeredUser : User :=
  { id := 7, role := Role.user, preferences := [EventType.Social],
    registeredEvents := [1] }

/-- A user with a matching preference and no registrations yet. -/
def freshUser : User :=
  { id := 7, role := Role.user, preferences := [EventType.Social],
    registeredEvents := [] }

/-- An update body that only supplies `capacity: 1`. -/
def capacityOneBody : EventBody := { capacity := some 1 }

/-- A fully-populated update body (as `validateEvent` requires) carrying
`fullEvent`'s own fields except `capacity: 1`. -/
def fullBodyCapOne : EventBody :=
  { title := some "Workshop Day", description := some "hands-on",
    date := some 1717200000000, time := some "09:00",
    location := some "lab", capacity := some 1,
    type := some EventType.Workshop }

/-! ## Supporting lemmas -/

/-- A pattern-valid `HH:MM` string starts with a decimal digit, and every
decimal digit precedes `'['` in code-unit order, so the comparison with
the stringified object literal always comes out true. -/
theorem hhmmValid_jsTimeLtObjectLiteral (s : String) (h : hhmmValid s = true) :
    jsTimeLtObjectLiteral s = true := by
  obtain ⟨l⟩ := s
  rcases l with _ | ⟨a, _ | ⟨b, _ | ⟨c, _ | ⟨d, _ | ⟨e, _ | ⟨f, tl⟩⟩⟩⟩⟩⟩
  · simp [hhmmValid] at h
  · simp [hhmmValid] at h
  · simp [hhmmValid] at h
  · simp [hhmmValid] at h
  · -- `[a, b, c, d]`: the hour is the single digit `a`
    simp only [hhmmValid, Bool.and_eq_true, Bool.or_eq_true, decide_eq_true_eq,
      beq_iff_eq] at h
    have ha : a < '[' := lt_of_le_of_lt h.1.1.1.2 (by decide)
    simp [jsTimeLtObjectLiteral, chLt, ha]
  · -- `[a, b, c, d, e]`: the hour digit `a` is `'0'`, `'1'` or `'2'`
    simp only [hhmmValid, Bool.and_eq_true, Bool.or_eq_true, decide_eq_true_eq,
      beq_iff_eq] at h
    have ha : a < '[' := by
      rcases h.1.1 with ⟨ha01 | ha01, -⟩ | ⟨ha2, -⟩
      · rw [ha01]; decide
      · rw [ha01]; decide
      · rw [ha2]; decide
    simp [jsTimeLtObjectLiteral, chLt, ha]
  · simp [hhmmValid] at h

/-- `find?` commutes with a map that does not change which elements the
predicate selects. -/
theorem find?_map_of_pres {α : Type} (p : α → Bool) (f : α → α) (l : List α)
    (hp : ∀ x, p (f x) = p x) :
    (l.map f).find? p = (l.find? p).map f := by
  induction l with
  | nil => rfl
  | cons x xs ih =>
    by_cases hx : p x = true
    · rw [List.map_cons, List.find?_cons_of_pos _ (by rw [hp x]; exact hx),
        List.find?_cons_of_pos _ hx]
      rfl
    · rw [List.map_cons, List.find?_cons_of_neg _ (by simp [hp x, hx]),
        List.find?_cons_of_neg _ (by simp [hx]), ih]

/-- Saving the document fetched by `findById` makes the next `findById`
return the saved version. -/
theorem findEvent_saveEvent (events : List Event) (eventId : Nat) (e e' : Event)
    (hfind : findEvent events eventId = some e) (hid : e'.id = e.id) :
    findEvent (saveEvent events e') eventId = some e' := by
  have hp : ∀ x : Event,
      (((if x.id == e'.id then e' else x).id == eventId) = (x.id == eventId)) := by
    intro x
    by_cases hxe : x.id = e'.id
    · simp [beq_iff_eq, hxe]
    · simp [beq_iff_eq, hxe]
  have hfind' : events.find? (fun x => x.id == eventId) = some e := by
    simpa [findEvent] using hfind
  have hmain := find?_map_of_pres (fun x : Event => x.id == eventId)
      (fun x => if x.id == e'.id then e' else x) events hp
  have hee' : (e.id == e'.id) = true := by simp [beq_iff_eq, hid]
  show (events.map (fun x => if x.id == e'.id then e' else x)).find?
      (fun x => x.id == eventId) = some e'
  rw [hmain, hfind']
  simp [hee']
  exact fun hne => absurd (eq_of_beq hee') hne

/-- A second user (id 8), preferring Social events, not yet registered
anywhere. -/
def secondUser : User :=
  { id := 8, role := Role.user, preferences := [EventType.Social],
    registeredEvents := [] }

/-! ## Claims -/

/-- Claim C4: `eventInstant` combines the stored calendar date with the
`HH:MM` time parsed as hours and minutes in UTC with seconds and
milliseconds zeroed, and `isUpcoming e now` holds iff
`eventInstant e > now` strictly (an event starting exactly at `now` is
not upcoming); concretely, date 2024-06-01 with time 23:30 is upcoming
for `now = 2024-06-01T23:00:00Z` and past for
`now = 2024-06-02T00:00:00Z`. -/
theorem isUpcoming_strict_instant_spec :
    (∀ (e : Event) (now : Nat), isUpcoming e now = true ↔ now < eventInstant e) ∧
    (∀ e : Event, isUpcoming e (eventInstant e) = false) ∧
    parseTime "23:30" = (23, 30) ∧
    eventInstant sampleEvent = dayStart sampleEvent.date + 23 * 3600000 + 30 * 60000 ∧
    eventInstant sampleEvent = 1717284600000 ∧
    isUpcoming sampleEvent 1717282800000 = true ∧
    isUpcoming sampleEvent 1717286400000 = false := by
  refine ⟨?_, ?_, rfl, rfl, rfl, rfl, rfl⟩
  · intro e now; simp [isUpcoming]
  · intro e; simp [isUpcoming]

/-- Claim C7: `isFull` equals `len(registrations) >= capacity` and
`availableSpots` equals `max(0, capacity - len(registrations))`, pure
functions of the event snapshot; an event with capacity 3 and 3
registrations reports `isFull = true` and `availableSpots = 0`, and
removing one registration flips them to `false` and `1`. -/
theorem isFull_availableSpots_contract (e : Event)
    (hc : e.capacity = 3) (hr : e.registrations.length = 3) :
    e.isFull = true ∧ e.availableSpots = 0 ∧
    Event.isFull { e with registrations := e.registrations.tail } = false ∧
    Event.availableSpots { e with registrations := e.registrations.tail } = 1 ∧
    (∀ e' : Event, (e'.isFull = true ↔ e'.capacity ≤ e'.registrations.length) ∧
      e'.availableSpots = max 0 ((e'.capacity : Int) - (e'.registrations.length : Int))) := by
  refine ⟨?_, ?_, ?_, ?_, fun e' => ⟨by simp [Event.isFull], rfl⟩⟩
  · simp [Event.isFull, hc, hr]
  · simp [Event.availableSpots, hc, hr]
  · simp [Event.isFull, hc, hr, List.length_tail]
  · simp [Event.availableSpots, hc, hr, List.length_tail]

/-- Claim C7, witnessed on `fullEvent` (capacity 3, three
registrations). -/
theorem isFull_availableSpots_contract_witness :
    fullEvent.isFull = true ∧ fullEvent.availableSpots = 0 ∧
    Event.isFull { fullEvent with registrations := fullEvent.registrations.tail } = false ∧
    Event.availableSpots { fullEvent with registrations := fullEvent.registrations.tail } = 1 ∧
    (∀ e' : Event, (e'.isFull = true ↔ e'.capacity ≤ e'.registrations.length) ∧
      e'.availableSpots = max 0 ((e'.capacity : Int) - (e'.registrations.length : Int))) :=
  isFull_availableSpots_contract fullEvent rfl rfl

/-- Claim C9: the register handler performs no time-window check — for a
stored event that exists, matches the user's preferences, has no
duplicate registration for that user and is not full, registration
succeeds even when the event's resolved instant is already in the past
(`hpast` plays no role in the handler's control flow). -/
theorem registerForEvent_no_time_check (events : List Event) (userIn : User)
    (eventId now : Nat) (e : Event)
    (hfind : findEvent events eventId = some e)
    (hpref : userIn.preferences.contains e.type = true)
    (hdup : e.registrations.any (fun reg => reg.user == userIn.id) = false)
    (hcap : e.registrations.length < e.capacity)
    (hpast : eventInstant e < now) :
    registerForEvent events userIn eventId now =
      .ok (saveEvent events
             { e with registrations := e.registrations ++ [⟨userIn.id, now⟩] },
           { userIn with registeredEvents := userIn.registeredEvents ++ [e.id] }) := by
  simp [registerForEvent, hfind, hpref, hdup, Nat.not_le.mpr hcap]

/-- Claim C9, witnessed: user 8 successfully registers for the 1970
event long after it took place. -/
theorem registerForEvent_no_time_check_witness :
    registerForEvent [pastRegEvent] secondUser 1 1717200000000 =
      .ok (saveEvent [pastRegEvent]
             { pastRegEvent with
               registrations := pastRegEvent.registrations ++ [⟨secondUser.id, 1717200000000⟩] },
           { secondUser with
             registeredEvents := secondUser.registeredEvents ++ [pastRegEvent.id] }) :=
  registerForEvent_no_time_check [pastRegEvent] secondUser 1 1717200000000
    pastRegEvent rfl rfl rfl (by decide) (by decide)

/-- Claim C2: registration succeeds only if the event exists, its type
is in the user's preferences, the user is not already registered, and
the event is not full; on failure the first violated precondition is
signalled in the fixed order NotFound, PreferenceMismatch,
AlreadyRegistered, EventFull with no mutation (the error return carries
no store); on success one registration is appended to the event and the
event id to the user's `registeredEvents`; a second identical call then
fails with AlreadyRegistered, and the stored event's registration count
stays at its post-first-call value. -/
theorem registerForEvent_state_machine (events : List Event) (userIn : User)
    (eventId now now2 : Nat) :
    (findEvent events eventId = none →
       registerForEvent events userIn eventId now = .error .NotFound) ∧
    (∀ e, findEvent events eventId = some e →
       userIn.preferences.contains e.type = false →
       registerForEvent events userIn eventId now = .error .PreferenceMismatch) ∧
    (∀ e, findEvent events eventId = some e →
       userIn.preferences.contains e.type = true →
       e.registrations.any (fun reg => reg.user == userIn.id) = true →
       registerForEvent events userIn eventId now = .error .AlreadyRegistered) ∧
    (∀ e, findEvent events eventId = some e →
       userIn.preferences.contains e.type = true →
       e.registrations.any (fun reg => reg.user == userIn.id) = false →
       e.capacity ≤ e.registrations.length →
       registerForEvent events userIn eventId now = .error .EventFull) ∧
    (∀ e, findEvent events eventId = some e →
       userIn.preferences.contains e.type = true →
       e.registrations.any (fun reg => reg.user == userIn.id) = false →
       e.registrations.length < e.capacity →
       registerForEvent events userIn eventId now =
         .ok (saveEvent events
                { e with registrations := e.registrations ++ [⟨userIn.id, now⟩] },
              { userIn with registeredEvents := userIn.registeredEvents ++ [e.id] }) ∧
       findEvent (saveEvent events
           { e with registrations := e.registrations ++ [⟨userIn.id, now⟩] }) eventId =
         some { e with registrations := e.registrations ++ [⟨userIn.id, now⟩] } ∧
       ({ e with registrations := e.registrations ++ [⟨userIn.id, now⟩] } : Event).registrations.length
         = e.registrations.length + 1 ∧
       registerForEvent
           (saveEvent events { e with registrations := e.registrations ++ [⟨userIn.id, now⟩] })
           { userIn with registeredEvents := userIn.registeredEvents ++ [e.id] }
           eventId now2 = .error .AlreadyRegistered) := by
  refine ⟨?_, ?_, ?_, ?_, ?_⟩
  · intro h; simp [registerForEvent, h]
  · intro e hfind hpref; simp [registerForEvent, hfind, hpref]
  · intro e hfind hpref hdup; simp [registerForEvent, hfind, hpref, hdup]
  · intro e hfind hpref hdup hcap; simp [registerForEvent, hfind, hpref, hdup, hcap]
  · intro e hfind hpref hdup hcap
    have hsave := findEvent_saveEvent events eventId e
        { e with registrations := e.registrations ++ [⟨userIn.id, now⟩] } hfind rfl
    refine ⟨by simp [registerForEvent, hfind, hpref, hdup, Nat.not_le.mpr hcap],
      hsave, by simp, ?_⟩
    simp [registerForEvent, hsave, hpref, List.any_append]

/-- Claim C2, witnessed: user 7 registers for `sampleEvent`, and the
identical second call fails with AlreadyRegistered. -/
theorem registerForEvent_state_machine_witness :
    registerForEvent [sampleEvent] freshUser 1 5 =
      .ok (saveEvent [sampleEvent]
             { sampleEvent with
               registrations := sampleEvent.registrations ++ [⟨freshUser.id, 5⟩] },
           { freshUser with
             registeredEvents := freshUser.registeredEvents ++ [sampleEvent.id] }) ∧
    registerForEvent
        (saveEvent [sampleEvent]
          { sampleEvent with
            registrations := sampleEvent.registrations ++ [⟨freshUser.id, 5⟩] })
        { freshUser with
          registeredEvents := freshUser.registeredEvents ++ [sampleEvent.id] }
        1 6 = .error .AlreadyRegistered := by
  have h := (registerForEvent_state_machine [sampleEvent] freshUser 1 5 6).2.2.2.2
      sampleEvent rfl rfl rfl (by decide)
  exact ⟨h.1, h.2.2.2⟩

/-- Claim C10 (counterexample): the same-day comparison of the time
string with the object literal evaluates to `true`, not `false`, and the
guard does reject an event whose stored date is not strictly before
`now`: at `now = 1970-01-01T00:00:00Z`, `pastRegEvent` (same stored
date) is rejected. -/
theorem startedGuard_same_day_rejects_cex :
    jsTimeLtObjectLiteral "14:00" = true ∧
    ¬ (pastRegEvent.date < 0) ∧
    startedGuard pastRegEvent 0 = true :=
  ⟨rfl, by decide, rfl⟩

/-- Claim C10 (amended): the same-day branch's comparison against the
object literal always evaluates to `true` for a pattern-valid `HH:MM`
time, so for every event whose stored date is not strictly before `now`
the guard rejects exactly when the stored date falls on the same UTC
calendar day as `now`, regardless of how the time-of-day relates to
`now`. -/
theorem startedGuard_same_day_characterization (e : Event) (now : Nat)
    (hv : hhmmValid e.time = true) (hd : ¬ e.date < now) :
    startedGuard e now = sameUTCDay e.date now := by
  simp [startedGuard, hd, hhmmValid_jsTimeLtObjectLiteral e.time hv]

/-- Claim C10 (amended), witnessed on `pastRegEvent` at the instant of
its own stored date. -/
theorem startedGuard_same_day_characterization_witness :
    startedGuard pastRegEvent 0 = sameUTCDay pastRegEvent.date 0 :=
  startedGuard_same_day_characterization pastRegEvent 0 rfl (by decide)

/-- Claim C1 (failing path): the admin router's update handler has no
capacity-versus-registrations check, so updating `fullEvent` (3 seats,
3 registrations) to capacity 1 succeeds and leaves a stored event whose
registration count exceeds its capacity — the invariant
`len(registrations) ≤ capacity` does not survive every mutation path. -/
theorem adminRouterUpdate_breaks_capacity_invariant :
    adminRouterUpdateEvent [fullEvent] 1 capacityOneBody =
      .ok [{ fullEvent with capacity := 1 }] ∧
    ¬ (({ fullEvent with capacity := 1 } : Event).registrations.length ≤
       ({ fullEvent with capacity := 1 } : Event).capacity) :=
  ⟨rfl, by decide⟩

/-- Claim C3 (failing path): the admin router's cancel handler checks no
time window and never touches the target user's `registeredEvents`: at
a `now` long after `pastRegEvent` took place the event is not upcoming,
yet cancelling user 7's registration succeeds, and the returned user
collection still lists event 1 in `registeredEvents`. -/
theorem adminRouterCancel_no_guard_no_sync :
    isUpcoming pastRegEvent 1717200000000 = false ∧
    adminRouterCancelRegistration [pastRegEvent] [registeredUser] 1 7 =
      .ok ([{ pastRegEvent with registrations := [] }], [registeredUser]) ∧
    registeredUser.registeredEvents = [1] :=
  ⟨rfl, rfl, rfl⟩

/-- Claim C5 (failing path): the events router's update rejects a
capacity below the registration count with CapacityInvariantViolated,
but the admin router's update path accepts the same reduction, so the
property does not hold on every update path. -/
theorem updateEvent_capacity_guard_divergence :
    updateEvent [fullEvent] 1 fullBodyCapOne = .error .CapacityInvariantViolated ∧
    adminRouterUpdateEvent [fullEvent] 1 capacityOneBody ≠
      .error .CapacityInvariantViolated ∧
    adminRouterUpdateEvent [fullEvent] 1 capacityOneBody =
      .ok [{ fullEvent with capacity := 1 }] ∧
    ({ fullEvent with capacity := 1 } : Event).capacity ≠ fullEvent.capacity :=
  by
  refine ⟨rfl, ?_, rfl, by decide⟩
  intro h
  rw [show adminRouterUpdateEvent [fullEvent] 1 capacityOneBody =
        Except.ok [{ fullEvent with capacity := 1 }] from rfl] at h
  exact Except.noConfusion h

/-- Claim C6 (failing paths): `sampleEvent`'s resolved instant
(2024-06-01T23:30Z) is strictly in the future at 23:00Z the same day,
yet the events router's delete rejects it with EventAlreadyStarted
(its guard compares the raw stored date, which is midnight and hence
already past); and the admin router's delete removes the long-past
`pastRegEvent` without any time check. -/
theorem deleteEvent_guard_divergence :
    (1717282800000 < eventInstant sampleEvent) ∧
    deleteEvent [sampleEvent] 1 1717282800000 = .error .EventAlreadyStarted ∧
    isUpcoming pastRegEvent 1717200000000 = false ∧
    adminRouterDeleteEvent [pastRegEvent] 1 = .ok [] :=
  ⟨by decide, rfl, rfl, rfl⟩

/-- Claim C8: on empty collections the dashboard returns all-zero counts
and an empty grouping (no error) — but its upcoming count compares the
raw stored date with `now` instead of the resolved instant
(`sampleEvent`, upcoming by the resolver at 23:00Z, is not counted),
and its grouping keys on the absent `eventType` field, putting every
event in the single `null` group instead of counting per type. -/
theorem dashboardStats_empty_and_divergence :
    dashboardStats [] [] 1717282800000 =
      { totalUsers := 0, totalEvents := 0, upcomingEvents := 0, eventsByType := [] } ∧
    isUpcoming sampleEvent 1717282800000 = true ∧
    (dashboardStats [sampleEvent] [] 1717282800000).upcomingEvents = 0 ∧
    (dashboardStats [sampleEvent] [] 1717282800000).eventsByType = [(none, 1)] :=
  ⟨rfl, rfl, rfl, rfl⟩

end Mosaic
